import Mathlib

/-!
Verification of the respx interception and matching engine
(src/respx/api.py and src/respx/transports.py) against its
natural-language specification.

The embedding is shallow: the mutable Python objects become explicit
state values, and each method becomes a Lean function from the state it
reads to the state it leaves behind.  The request/pattern/response model
classes live in models.py, which is not part of the sources at hand;
those definitions are modelled from the spec and are marked as such in
their doc comments.  Everything taken from api.py / transports.py is
translated statement by statement from the Python source.
-/

/-- Modelled from the spec: the request object of the external HTTP
client library, reduced to the fields the matching engine reads
(method and absolute URL). -/
structure Request where
  method : String
  url : String
deriving DecidableEq, Repr

/-- Modelled from the spec: ResponseTemplate from models.py (not under
src/): a declarative description of a synthetic response with
status_code (default 200), headers, content and http_version
(default "1.1"). -/
structure ResponseTemplate where
  status_code : Nat
  headers : List (String × String)
  content : String
  http_version : String
deriving DecidableEq, Repr

/-- Modelled from the spec: the value of `ResponseTemplate()` built with
all defaults, as produced at src/respx/api.py line 234 for an unmatched
request: status 200, no headers, no body, HTTP version "1.1". -/
def defaultResponseTemplate : ResponseTemplate :=
  { status_code := 200, headers := [], content := "", http_version := "1.1" }

/-- Result of `pattern.match(request)` as consumed by
`HTTPXMock._match` (src/respx/api.py lines 200-224): falsy (no match),
a ResponseTemplate (mock the response), or a Request (pass-through). -/
inductive MatchResult
  | noMatch
  | mock (tmpl : ResponseTemplate)
  | passThrough
deriving DecidableEq, Repr

/-- Modelled from the spec: RequestPattern from models.py (not under
src/): an immutable matcher (here an exact method + URL matcher, the
simplest matcher shape the spec allows) paired with either a response
template or a pass-through directive, plus a mutable call counter. -/
structure RequestPattern where
  method : String
  url : String
  pass_through : Bool
  response : ResponseTemplate
  call_count : Nat
deriving DecidableEq, Repr

/-- Modelled from the spec: `pattern.match(request)` succeeds when every
configured matcher succeeds, and then yields the pass-through request or
the response template. -/
def RequestPattern.matchReq (p : RequestPattern) (r : Request) : MatchResult :=
  if p.method = r.method ∧ p.url = r.url then
    if p.pass_through then MatchResult.passThrough else MatchResult.mock p.response
  else
    MatchResult.noMatch

/-- Truthiness of `pattern.match(request)` as tested by
`if not match: continue` in src/respx/api.py line 201. -/
def matchesB (req : Request) (p : RequestPattern) : Bool :=
  match p.matchReq req with
  | MatchResult.noMatch => false
  | _ => true

/-- Spec-side helper: the first pattern of the list that matches the
request (registration order is priority order). -/
def firstMatching (req : Request) : List RequestPattern → Option RequestPattern
  | [] => none
  | p :: ps => if matchesB req p then some p else firstMatching req ps

/-- Spec-side helper: how many registered patterns match the request. -/
def numMatching (req : Request) : List RequestPattern → Nat
  | [] => 0
  | p :: ps => (if matchesB req p then 1 else 0) + numMatching req ps

/-- Spec-side helper: the registry with the first matching pattern
removed. -/
def eraseFirstMatching (req : Request) : List RequestPattern → List RequestPattern
  | [] => []
  | p :: ps => if matchesB req p then ps else p :: eraseFirstMatching req ps

/-- Spec-side helper: the response a matching pattern contributes
(some template for a mock, none for a pass-through). -/
def responseOf (req : Request) (p : RequestPattern) : Option ResponseTemplate :=
  match p.matchReq req with
  | MatchResult.mock t => some t
  | _ => none

/-- Does any pattern of the list match the request?  This is the
condition under which the scan in `HTTPXMock._match` finds a second
match after the first one. -/
def hasMatch (req : Request) : List RequestPattern → Bool
  | [] => false
  | p :: ps => matchesB req p || hasMatch req ps

/-- Loop body of `HTTPXMock._match` (src/respx/api.py lines 199-224):
scan the registry in order; remember the first match and its response;
on a second match pop the first matched pattern from the registry and
break.  Returns (matched pattern, response, registry after the scan). -/
def respxMatchAux (req : Request) :
    List RequestPattern → Option RequestPattern × Option ResponseTemplate × List RequestPattern
  | [] => (none, none, [])
  | p :: ps =>
    match p.matchReq req with
    | MatchResult.noMatch =>
        let r := respxMatchAux req ps
        (r.1, r.2.1, p :: r.2.2)
    | MatchResult.mock t =>
        if hasMatch req ps then (some p, some t, ps) else (some p, some t, p :: ps)
    | MatchResult.passThrough =>
        if hasMatch req ps then (some p, none, ps) else (some p, none, p :: ps)

/-- Outcome of `HTTPXMock._match`: either the assertion failure
"RESPX: ... not mocked!" or a (pattern-or-none, response-or-none)
pair. -/
inductive MatchOut
  | assertionError
  | ok (pattern : Option RequestPattern) (response : Option ResponseTemplate)
deriving DecidableEq, Repr

/-- `HTTPXMock._match` (src/respx/api.py lines 190-236): run the scan,
then assert that a pattern matched when assert_all_mocked is enabled,
and fall back to a default ResponseTemplate when nothing matched and
the assertion is disabled.  Returns the outcome and the registry left
in `self._patterns`. -/
def respxMatch (assert_all_mocked : Bool) (patterns : List RequestPattern)
    (req : Request) : MatchOut × List RequestPattern :=
  let r := respxMatchAux req patterns
  match r.1 with
  | none =>
      if assert_all_mocked then (MatchOut.assertionError, r.2.2)
      else (MatchOut.ok none (some defaultResponseTemplate), r.2.2)
  | some p => (MatchOut.ok (some p) r.2.1, r.2.2)

theorem hasMatch_iff (req : Request) (ps : List RequestPattern) :
    hasMatch req ps = true ↔ 1 ≤ numMatching req ps := by
  induction ps with
  | nil => simp [hasMatch, numMatching]
  | cons p ps ih =>
    by_cases h : matchesB req p <;> simp [hasMatch, numMatching, h, ih]

theorem respxMatchAux_eq (req : Request) (ps : List RequestPattern) :
    respxMatchAux req ps =
      (firstMatching req ps,
       (firstMatching req ps).bind (responseOf req),
       if 2 ≤ numMatching req ps then eraseFirstMatching req ps else ps) := by
  induction ps with
  | nil => simp [respxMatchAux, firstMatching, numMatching, eraseFirstMatching]
  | cons p ps ih =>
    cases hm : p.matchReq req with
    | noMatch =>
      have hb : matchesB req p = false := by simp [matchesB, hm]
      by_cases hc : 2 ≤ numMatching req ps <;>
        simp [respxMatchAux, hm, ih, firstMatching, numMatching, eraseFirstMatching, hb, hc]
    | mock t =>
      have hb : matchesB req p = true := by simp [matchesB, hm]
      by_cases hr : hasMatch req ps = true
      · have h1 : 1 ≤ numMatching req ps := (hasMatch_iff req ps).mp hr
        have h2 : 2 ≤ numMatching req (p :: ps) := by
          simp [numMatching, hb]; omega
        simp [respxMatchAux, hm, hr, firstMatching, hb, responseOf,
          eraseFirstMatching, h2]
      · have h1 : ¬ 1 ≤ numMatching req ps := fun h => hr ((hasMatch_iff req ps).mpr h)
        have h2 : ¬ 2 ≤ numMatching req (p :: ps) := by
          simp [numMatching, hb]; omega
        simp [respxMatchAux, hm, hr, firstMatching, hb, responseOf, h2]
    | passThrough =>
      have hb : matchesB req p = true := by simp [matchesB, hm]
      by_cases hr : hasMatch req ps = true
      · have h1 : 1 ≤ numMatching req ps := (hasMatch_iff req ps).mp hr
        have h2 : 2 ≤ numMatching req (p :: ps) := by
          simp [numMatching, hb]; omega
        simp [respxMatchAux, hm, hr, firstMatching, hb, responseOf,
          eraseFirstMatching, h2]
      · have h1 : ¬ 1 ≤ numMatching req ps := fun h => hr ((hasMatch_iff req ps).mpr h)
        have h2 : ¬ 2 ≤ numMatching req (p :: ps) := by
          simp [numMatching, hb]; omega
        simp [respxMatchAux, hm, hr, firstMatching, hb, responseOf, h2]

theorem firstMatching_isSome (req : Request) (ps : List RequestPattern)
    (h : 1 ≤ numMatching req ps) : ∃ p, firstMatching req ps = some p := by
  induction ps with
  | nil => simp [numMatching] at h
  | cons p ps ih =>
    by_cases hb : matchesB req p
    · exact ⟨p, by simp [firstMatching, hb]⟩
    · simp [numMatching, hb] at h
      obtain ⟨q, hq⟩ := ih h
      exact ⟨q, by simp [firstMatching, hb, hq]⟩

theorem respxMatch_matched (aam : Bool) (ps : List RequestPattern) (req : Request)
    (h : 1 ≤ numMatching req ps) :
    respxMatch aam ps req =
      (MatchOut.ok (firstMatching req ps) ((firstMatching req ps).bind (responseOf req)),
       if 2 ≤ numMatching req ps then eraseFirstMatching req ps else ps) := by
  obtain ⟨p, hp⟩ := firstMatching_isSome req ps h
  simp [respxMatch, respxMatchAux_eq, hp]

theorem numMatching_erase (req : Request) (ps : List RequestPattern)
    (h : 1 ≤ numMatching req ps) :
    numMatching req (eraseFirstMatching req ps) = numMatching req ps - 1 := by
  induction ps with
  | nil => simp [numMatching] at h
  | cons p ps ih =>
    by_cases hb : matchesB req p
    · simp [numMatching, eraseFirstMatching, hb]
    · simp [numMatching, hb] at h
      simp [numMatching, eraseFirstMatching, hb, ih h]

theorem firstMatching_eq_none (req : Request) (ps : List RequestPattern)
    (h : numMatching req ps = 0) : firstMatching req ps = none := by
  induction ps with
  | nil => rfl
  | cons p ps ih =>
    by_cases hb : matchesB req p
    · simp [numMatching, hb] at h
    · simp [numMatching, hb] at h
      simp [firstMatching, hb, ih h]

/-- Concrete response template with body "A", for witnesses. -/
def tmplA : ResponseTemplate :=
  { status_code := 200, headers := [], content := "A", http_version := "1.1" }

/-- Concrete response template with body "B", for witnesses. -/
def tmplB : ResponseTemplate :=
  { status_code := 200, headers := [], content := "B", http_version := "1.1" }

/-- Concrete request GET https://example.org/x, for witnesses. -/
def reqX : Request := { method := "GET", url := "https://example.org/x" }

/-- Concrete request GET https://example.org/y, for witnesses. -/
def reqY : Request := { method := "GET", url := "https://example.org/y" }

/-- Concrete pattern matching reqX, mocking body "A". -/
def patternA : RequestPattern :=
  { method := "GET", url := "https://example.org/x", pass_through := false,
    response := tmplA, call_count := 0 }

/-- Concrete pattern matching reqX, mocking body "B". -/
def patternB : RequestPattern :=
  { method := "GET", url := "https://example.org/x", pass_through := false,
    response := tmplB, call_count := 0 }

/-- C1, counterexample: with two patterns both matching the request
(bodies "A" and "B"), `_match` does evict the first pattern, but it does
NOT restart matching on the shortened registry: the outcome is the first
pattern with body "A", whereas a re-scan of the shortened registry would
yield body "B".  So the request outcome is not determined by a re-scan
without the evicted pattern. -/
theorem c1_ambiguity_no_rescan_counterexample :
    respxMatch true [patternA, patternB] reqX
      = (MatchOut.ok (some patternA) (some tmplA), [patternB]) ∧
    respxMatch true [patternB] reqX
      = (MatchOut.ok (some patternB) (some tmplB), [patternB]) ∧
    tmplA ≠ tmplB := by
  refine ⟨by decide, by decide, by decide⟩

/-- C1, amended: for every request that matches two or more registered
patterns, the first-registered matching pattern is permanently evicted
from the registry (not just for this call), scanning stops at the
second match, and the request outcome is the first-registered matching
pattern together with its own response (no re-scan occurs). -/
theorem c1_ambiguity_eviction_amended (aam : Bool) (ps : List RequestPattern)
    (req : Request) (h : 2 ≤ numMatching req ps) :
    (respxMatch aam ps req).2 = eraseFirstMatching req ps ∧
    (respxMatch aam ps req).1 =
      MatchOut.ok (firstMatching req ps) ((firstMatching req ps).bind (responseOf req)) := by
  have h1 : 1 ≤ numMatching req ps := by omega
  rw [respxMatch_matched aam ps req h1]
  simp [h]

/-- C1, witness: the amended statement evaluated on the concrete
two-pattern registry. -/
theorem c1_ambiguity_eviction_amended_witness :
    2 ≤ numMatching reqX [patternA, patternB] ∧
    ((respxMatch true [patternA, patternB] reqX).2
        = eraseFirstMatching reqX [patternA, patternB] ∧
     (respxMatch true [patternA, patternB] reqX).1 =
       MatchOut.ok (firstMatching reqX [patternA, patternB])
         ((firstMatching reqX [patternA, patternB]).bind (responseOf reqX))) :=
  ⟨by decide, c1_ambiguity_eviction_amended true [patternA, patternB] reqX (by decide)⟩

/-- C2: when a request matches two or more patterns, the first exchange
returns the first-registered matching pattern and its response, and
leaves the registry without that pattern; a second identical request is
then matched against the surviving registry and returns its first
matching (next surviving) pattern together with that pattern response. -/
theorem c2_ambiguous_exchange_then_next_surviving (aam : Bool)
    (ps : List RequestPattern) (req : Request) (h : 2 ≤ numMatching req ps) :
    respxMatch aam ps req =
      (MatchOut.ok (firstMatching req ps) ((firstMatching req ps).bind (responseOf req)),
       eraseFirstMatching req ps) ∧
    respxMatch aam (eraseFirstMatching req ps) req =
      (MatchOut.ok (firstMatching req (eraseFirstMatching req ps))
         ((firstMatching req (eraseFirstMatching req ps)).bind (responseOf req)),
       if 2 ≤ numMatching req (eraseFirstMatching req ps) then
         eraseFirstMatching req (eraseFirstMatching req ps)
       else eraseFirstMatching req ps) := by
  have h1 : 1 ≤ numMatching req ps := by omega
  have he : numMatching req (eraseFirstMatching req ps) = numMatching req ps - 1 :=
    numMatching_erase req ps h1
  have h2 : 1 ≤ numMatching req (eraseFirstMatching req ps) := by omega
  constructor
  · rw [respxMatch_matched aam ps req h1]
    simp [h]
  · exact respxMatch_matched aam (eraseFirstMatching req ps) req h2

/-- C2, witness: the register-A-then-B scenario; the first request
returns body "A" and evicts the first pattern, the second identical
request returns body "B". -/
theorem c2_ambiguous_exchange_then_next_surviving_witness :
    2 ≤ numMatching reqX [patternA, patternB] ∧
    respxMatch true [patternA, patternB] reqX
      = (MatchOut.ok (some patternA) (some tmplA), [patternB]) ∧
    respxMatch true [patternB] reqX
      = (MatchOut.ok (some patternB) (some tmplB), [patternB]) := by
  have h := c2_ambiguous_exchange_then_next_surviving true [patternA, patternB] reqX (by decide)
  refine ⟨by decide, ?_, ?_⟩
  · rw [h.1]
    decide
  · have h2 := h.2
    rw [show eraseFirstMatching reqX [patternA, patternB] = [patternB] from by decide] at h2
    rw [h2]
    decide

/-- C3: for a request matched by no registered pattern, `_match` fails
with the not-mocked assertion when assert_all_mocked is enabled (no
response is produced), and returns no pattern together with the default
empty response template (status 200, no body) when it is disabled; the
registry is unchanged in both cases. -/
theorem c3_unmatched_assert_or_default (ps : List RequestPattern) (req : Request)
    (h : numMatching req ps = 0) :
    respxMatch true ps req = (MatchOut.assertionError, ps) ∧
    respxMatch false ps req = (MatchOut.ok none (some defaultResponseTemplate), ps) := by
  have hf : firstMatching req ps = none := firstMatching_eq_none req ps h
  constructor <;> simp [respxMatch, respxMatchAux_eq, hf, h]

/-- C3, witness: strict mode with an empty registry raises on
GET https://example.org/y, and lax mode returns the default template. -/
theorem c3_unmatched_assert_or_default_witness :
    numMatching reqY ([] : List RequestPattern) = 0 ∧
    respxMatch true [] reqY = (MatchOut.assertionError, []) ∧
    respxMatch false [] reqY = (MatchOut.ok none (some defaultResponseTemplate), []) := by
  have h := c3_unmatched_assert_or_default [] reqY (by decide)
  exact ⟨by decide, h.1, h.2⟩

/-- Modelled from the spec: `pattern.called` from models.py (not under
src/): whether the pattern has been matched at least once, i.e. its
call counter is nonzero. -/
def RequestPattern.called (p : RequestPattern) : Bool :=
  p.call_count != 0

/-- `HTTPXMock.assert_all_called` (src/respx/api.py lines 137-140):
the asserted condition `all(pattern.called for pattern in
self._patterns)`; the method raises exactly when this is false. -/
def assertAllCalled (ps : List RequestPattern) : Bool :=
  ps.all RequestPattern.called

theorem assertAllCalled_true_iff (ps : List RequestPattern) :
    assertAllCalled ps = true ↔ ∀ p ∈ ps, 1 ≤ p.call_count := by
  simp [assertAllCalled, List.all_eq_true, RequestPattern.called]
  constructor
  · intro hh p hp
    have := hh p hp
    omega
  · intro hh p hp
    have := hh p hp
    omega

theorem assertAllCalled_false_iff (ps : List RequestPattern) :
    assertAllCalled ps = false ↔ ∃ p ∈ ps, p.call_count = 0 := by
  rw [← not_iff_not, Bool.not_eq_false, assertAllCalled_true_iff]
  push_neg
  constructor
  · intro hh p hp
    have := hh p hp
    omega
  · intro hh p hp
    have := hh p hp
    omega

/-- C5: `assert_all_called()` raises (its asserted condition is false)
if and only if at least one registered pattern has call count zero;
equivalently it returns without raising exactly when every registered
pattern has been called at least once. -/
theorem c5_assert_all_called_iff (ps : List RequestPattern) :
    (assertAllCalled ps = false ↔ ∃ p ∈ ps, p.call_count = 0) ∧
    (assertAllCalled ps = true ↔ ∀ p ∈ ps, 1 ≤ p.call_count) :=
  ⟨assertAllCalled_false_iff ps, assertAllCalled_true_iff ps⟩

/-- Observable response object of the external HTTP client, reduced to
status and body; it is what `Client.send` produces. -/
structure Response where
  status_code : Nat
  body : String
deriving DecidableEq, Repr

/-- State of an HTTPXMock instance (src/respx/api.py lines 22-37):
the two assertion flags, the pattern registry, the alias lookup table
(modelled by its lookup function), the recorded calls, and the number
of installed patchers. -/
structure HTTPXMockState where
  assertAllCalledFlag : Bool
  assertAllMockedFlag : Bool
  patterns : List RequestPattern
  aliases : String → Option RequestPattern
  calls : List (Request × Option Response)
  patchers : Nat

/-- `HTTPXMock.reset` (src/respx/api.py lines 130-135): clear patchers,
patterns, aliases, calls and statistics. -/
def resetMock (m : HTTPXMockState) : HTTPXMockState :=
  { m with patterns := [], aliases := fun _ => none, calls := [], patchers := 0 }

/-- `HTTPXMock.stop` (src/respx/api.py lines 119-128): pop and stop
every installed patcher (LIFO), then reset when requested. -/
def stopMock (m : HTTPXMockState) (reset : Bool) : HTTPXMockState :=
  let stopped := { m with patchers := 0 }
  if reset then resetMock stopped else stopped

/-- Events observable during `HTTPXMock.__exit__`. -/
inductive ExitEvent
  | assertionRaised
  | stopped
deriving DecidableEq, Repr

/-- `HTTPXMock.__exit__` (src/respx/api.py lines 93-98): inside a
try/finally, run `assert_all_called` when the flag is enabled, then
always run `stop()` (with reset), whether or not the assertion raised.
Returns the final state, whether the assertion failure propagates, and
the ordered list of observable events. -/
def exitMock (m : HTTPXMockState) : HTTPXMockState × Bool × List ExitEvent :=
  let raised := m.assertAllCalledFlag && !(assertAllCalled m.patterns)
  (stopMock m true, raised,
    (if raised then [ExitEvent.assertionRaised] else []) ++ [ExitEvent.stopped])

/-- C6: at scope exit, the assertion failure propagates exactly when
the assert_all_called flag is enabled and some registered pattern was
never called; the stop/teardown step is performed afterwards in every
case (the stopped event is always last and the final state is the
stopped-and-reset state, even when the assertion raised). -/
theorem c6_exit_asserts_then_always_stops (m : HTTPXMockState) :
    ((exitMock m).2.1 = true ↔
      (m.assertAllCalledFlag = true ∧ ∃ p ∈ m.patterns, p.call_count = 0)) ∧
    (exitMock m).1 = stopMock m true ∧
    (exitMock m).2.2.getLast? = some ExitEvent.stopped := by
  refine ⟨?_, rfl, ?_⟩
  · simp only [exitMock, Bool.and_eq_true, Bool.not_eq_true']
    rw [assertAllCalled_false_iff]
  · simp [exitMock, List.getLast?_concat]

/-- Errors that can escape `_send_spy` (src/respx/api.py lines
287-302): the not-mocked assertion raised by `_match` inside
`_patch_backend`, or an error of the real transport, identified by an
opaque code. -/
inductive SpyError
  | notMocked
  | transport (code : Nat)
deriving DecidableEq, Repr

/-- Ordered observable steps of one exchange through `_send_spy`:
the `_match` call made when `_patch_backend` is entered, the completion
(return or raise) of the `_send` call, and the `capture` call made in
the finally block. -/
inductive SpyEvent
  | matchDone
  | sendDone
  | captureDone
deriving DecidableEq, Repr

/-- Position of the first occurrence of an event in a trace (length of
the trace when absent). -/
def eventIndex (e : SpyEvent) : List SpyEvent → Nat
  | [] => 0
  | x :: xs => if x = e then 0 else eventIndex e xs + 1

/-- Result of one exchange through `_send_spy`: the propagated result,
the recorded call list, the registry left behind, the state of the
matched pattern after the exchange (none when no pattern matched), and
the event trace. -/
structure SpyResult where
  result : Except SpyError Response
  calls : List (Request × Option Response)
  patterns : List RequestPattern
  matched : Option RequestPattern
  trace : List SpyEvent

/-- In-place update performed by `pattern.stats(request, response)`
inside `_capture` (src/respx/api.py line 248): the matched pattern,
still sitting in the registry unless it was evicted, gets its call
counter incremented. -/
def bumpFirst (q : RequestPattern) : List RequestPattern → List RequestPattern
  | [] => []
  | p :: ps =>
      if p = q then { p with call_count := p.call_count + 1 } :: ps
      else p :: bumpFirst q ps

/-- `HTTPXMock._send_spy` together with `_patch_backend` and `_capture`
(src/respx/api.py lines 238-302).  The call `_patch_backend` runs
`_match` first; if its assertion fails the error propagates at once and
nothing is recorded.  Otherwise `_send` runs (its outcome, a response
or a transport error, is the external input `sendOutcome`), and the
finally block then records the exchange: the calls list gets the pair
(request, response-or-none), and the matched pattern, if any, gets its
call counter incremented.  The original send result, success or error,
is what the caller sees. -/
def sendSpy (assert_all_mocked : Bool) (ps : List RequestPattern)
    (calls₀ : List (Request × Option Response)) (req : Request)
    (sendOutcome : Except Nat Response) : SpyResult :=
  let m := respxMatch assert_all_mocked ps req
  match m.1 with
  | MatchOut.assertionError =>
      { result := Except.error SpyError.notMocked, calls := calls₀,
        patterns := m.2, matched := none, trace := [SpyEvent.matchDone] }
  | MatchOut.ok mp _ =>
      let result : Except SpyError Response :=
        match sendOutcome with
        | Except.ok r => Except.ok r
        | Except.error e => Except.error (SpyError.transport e)
      let recorded : Option Response :=
        match sendOutcome with
        | Except.ok r => some r
        | Except.error _ => none
      { result := result
        calls := calls₀ ++ [(req, recorded)]
        patterns := match mp with
          | none => m.2
          | some p => bumpFirst p m.2
        matched := match mp with
          | none => none
          | some p => some { p with call_count := p.call_count + 1 }
        trace := [SpyEvent.matchDone, SpyEvent.sendDone, SpyEvent.captureDone] }

/-- C4, counterexample: on a concrete matched exchange the match step
itself does not change any call counter (the registry coming out of
`_match` still holds the pattern with count 0), and in the event trace
the capture step that performs the increment comes strictly after the
completion of the send, not before: the claim that the counter is
incremented as part of the match, before the exchange completes, fails
here. -/
theorem c4_increment_timing_counterexample :
    (respxMatch true [patternA] reqX).2 = [patternA] ∧
    patternA.call_count = 0 ∧
    (sendSpy true [patternA] [] reqX (Except.ok { status_code := 200, body := "A" })).trace
      = [SpyEvent.matchDone, SpyEvent.sendDone, SpyEvent.captureDone] ∧
    ¬ (eventIndex SpyEvent.captureDone
          (sendSpy true [patternA] [] reqX
            (Except.ok { status_code := 200, body := "A" })).trace
        < eventIndex SpyEvent.sendDone
          (sendSpy true [patternA] [] reqX
            (Except.ok { status_code := 200, body := "A" })).trace) ∧
    (sendSpy true [patternA] [] reqX
        (Except.ok { status_code := 200, body := "A" })).matched
      = some { patternA with call_count := 1 } := by
  refine ⟨by decide, by decide, by decide, by decide, by decide⟩

/-- C4, amended: for every matched exchange the matched pattern call
counter is incremented by the capture step of the finally block, after
the send attempt finishes, and this happens for every send outcome,
including a failing one, so the pattern is observed as called even if
the exchange fails. -/
theorem c4_increment_in_finally_amended (assert_all_mocked : Bool)
    (ps : List RequestPattern) (calls₀ : List (Request × Option Response))
    (req : Request) (p : RequestPattern) (r : Option ResponseTemplate)
    (sendOutcome : Except Nat Response)
    (h : (respxMatch assert_all_mocked ps req).1 = MatchOut.ok (some p) r) :
    (sendSpy assert_all_mocked ps calls₀ req sendOutcome).matched
      = some { p with call_count := p.call_count + 1 } ∧
    (sendSpy assert_all_mocked ps calls₀ req sendOutcome).trace
      = [SpyEvent.matchDone, SpyEvent.sendDone, SpyEvent.captureDone] := by
  constructor <;> simp [sendSpy, h]

/-- C4, witness: the amended statement on a concrete exchange whose
send fails with transport error 7; the matched pattern is still
observed with call count 1. -/
theorem c4_increment_in_finally_amended_witness :
    (respxMatch true [patternA] reqX).1 = MatchOut.ok (some patternA) (some tmplA) ∧
    ((sendSpy true [patternA] [] reqX (Except.error 7)).matched
        = some { patternA with call_count := patternA.call_count + 1 } ∧
     (sendSpy true [patternA] [] reqX (Except.error 7)).trace
        = [SpyEvent.matchDone, SpyEvent.sendDone, SpyEvent.captureDone]) :=
  ⟨by decide,
   c4_increment_in_finally_amended true [patternA] [] reqX patternA (some tmplA)
     (Except.error 7) (by decide)⟩

/-- C7: for every exchange that passes the match step, the pair
(request, response-or-none) is recorded in the finally block whatever
the send outcome is: a successful send is recorded with its response
and returned unchanged, and a failing send is recorded with a none
response while the original error propagates to the caller. -/
theorem c7_capture_in_finally_propagates_error (assert_all_mocked : Bool)
    (ps : List RequestPattern) (calls₀ : List (Request × Option Response))
    (req : Request) (sendOutcome : Except Nat Response)
    (h : (respxMatch assert_all_mocked ps req).1 ≠ MatchOut.assertionError) :
    (sendSpy assert_all_mocked ps calls₀ req sendOutcome).calls
      = calls₀ ++ [(req, match sendOutcome with
                         | Except.ok r => some r
                         | Except.error _ => none)] ∧
    (∀ e, sendOutcome = Except.error e →
      (sendSpy assert_all_mocked ps calls₀ req sendOutcome).result
        = Except.error (SpyError.transport e)) ∧
    (∀ r, sendOutcome = Except.ok r →
      (sendSpy assert_all_mocked ps calls₀ req sendOutcome).result = Except.ok r) := by
  cases hm : (respxMatch assert_all_mocked ps req).1 with
  | assertionError => exact absurd hm h
  | ok mp resp =>
    refine ⟨by simp [sendSpy, hm], ?_, ?_⟩
    · intro e he
      subst he
      simp [sendSpy, hm]
    · intro r hr
      subst hr
      simp [sendSpy, hm]

/-- C7, witness: a concrete exchange whose real transport raises error
code 9 is recorded with a none response and the error propagates. -/
theorem c7_capture_in_finally_propagates_error_witness :
    (respxMatch true [patternA] reqX).1 ≠ MatchOut.assertionError ∧
    (sendSpy true [patternA] [] reqX (Except.error 9)).calls = [(reqX, none)] ∧
    (sendSpy true [patternA] [] reqX (Except.error 9)).result
      = Except.error (SpyError.transport 9) := by
  have h := c7_capture_in_finally_propagates_error true [patternA] [] reqX
    (Except.error 9) (by decide)
  exact ⟨by decide, by simpa using h.1, h.2.1 9 rfl⟩

/-- Assignment of `pattern` under a key in `self.aliases` as performed
by `HTTPXMock.add` (src/respx/api.py lines 142-145); the dict is
modelled by its lookup function, which is all `__getitem__` observes. -/
def dictSet (d : String → Option RequestPattern) (k : String)
    (v : RequestPattern) : String → Option RequestPattern :=
  fun a => if a = k then some v else d a

/-- Registration state touched by `HTTPXMock.add`: the ordered pattern
list and the alias lookup table. -/
structure RegistryState where
  patterns : List RequestPattern
  aliases : String → Option RequestPattern

/-- State of a fresh HTTPXMock: no patterns, no aliases. -/
def emptyRegistry : RegistryState :=
  { patterns := [], aliases := fun _ => none }

/-- `HTTPXMock.add` (src/respx/api.py lines 142-145): append the
pattern to the registry and, when an alias is given, store it in the
alias table, overwriting any previous pattern under that alias. -/
def addPattern (st : RegistryState) (p : RequestPattern)
    (al : Option String) : RegistryState :=
  { patterns := st.patterns ++ [p],
    aliases := match al with
      | none => st.aliases
      | some a => dictSet st.aliases a p }

/-- `HTTPXMock.__getitem__` (src/respx/api.py lines 187-188): the call
`self.aliases.get(alias)`, returning none for an unknown alias instead
of raising. -/
def getItem (st : RegistryState) (a : String) : Option RequestPattern :=
  st.aliases a

/-- Run a sequence of `add` registrations against a state. -/
def applyAdds (st : RegistryState) :
    List (RequestPattern × Option String) → RegistryState
  | [] => st
  | op :: ops => applyAdds (addPattern st op.1 op.2) ops

/-- Spec-side helper: the pattern most recently registered under the
alias in the operation sequence, with acc holding the result for the
operations already consumed. -/
def lastRegistered (a : String) :
    List (RequestPattern × Option String) → Option RequestPattern → Option RequestPattern
  | [], acc => acc
  | op :: ops, acc =>
      lastRegistered a ops (if op.2 = some a then some op.1 else acc)

theorem getItem_addPattern (st : RegistryState) (p : RequestPattern)
    (al : Option String) (a : String) :
    getItem (addPattern st p al) a
      = if al = some a then some p else getItem st a := by
  cases al with
  | none => simp [getItem, addPattern]
  | some b =>
    by_cases hb : a = b
    · subst hb
      simp [getItem, addPattern, dictSet]
    · have hba : ¬ (some b = some a) := by
        intro hc
        exact hb (Option.some.inj hc).symm
      simp [getItem, addPattern, dictSet, hb, hba]

theorem getItem_applyAdds (ops : List (RequestPattern × Option String))
    (st : RegistryState) (a : String) :
    getItem (applyAdds st ops) a = lastRegistered a ops (getItem st a) := by
  induction ops generalizing st with
  | nil => rfl
  | cons op ops ih =>
    simp only [applyAdds, lastRegistered]
    rw [ih, getItem_addPattern]

theorem lastRegistered_of_never (a : String) :
    ∀ (ops : List (RequestPattern × Option String)) (acc : Option RequestPattern),
      (∀ op ∈ ops, op.2 ≠ some a) → lastRegistered a ops acc = acc
  | [], _, _ => rfl
  | op :: ops, acc, h => by
    have h1 : op.2 ≠ some a := h op (by simp)
    simp only [lastRegistered, if_neg h1]
    exact lastRegistered_of_never a ops acc fun q hq => h q (by simp [hq])

/-- C10: looking a pattern up by alias through the subscript operator
after any sequence of registrations returns the most recently
registered pattern under that alias, and in particular returns none
(rather than raising) for an alias string that was never registered. -/
theorem c10_alias_lookup (ops : List (RequestPattern × Option String))
    (a : String) (h : ∀ op ∈ ops, op.2 ≠ some a) :
    (∀ b : String,
      getItem (applyAdds emptyRegistry ops) b = lastRegistered b ops none) ∧
    getItem (applyAdds emptyRegistry ops) a = none := by
  have hmain : ∀ b : String,
      getItem (applyAdds emptyRegistry ops) b = lastRegistered b ops none := by
    intro b
    have := getItem_applyAdds ops emptyRegistry b
    simpa [getItem, emptyRegistry] using this
  refine ⟨hmain, ?_⟩
  rw [hmain a, lastRegistered_of_never a ops none h]

/-- C10, witness: two registrations under the alias x return the later
pattern, and the never-registered alias y returns none. -/
theorem c10_alias_lookup_witness :
    (∀ op ∈ [(patternA, some "x"), (patternB, some "x")],
        op.2 ≠ some "y") ∧
    getItem (applyAdds emptyRegistry [(patternA, some "x"), (patternB, some "x")]) "y"
      = none ∧
    getItem (applyAdds emptyRegistry [(patternA, some "x"), (patternB, some "x")]) "x"
      = some patternB := by
  have hy : ∀ op ∈ [(patternA, some "x"), (patternB, some "x")], op.2 ≠ some "y" := by
    decide
  have h := c10_alias_lookup [(patternA, some "x"), (patternB, some "x")] "y" hy
  refine ⟨hy, h.2, ?_⟩
  rw [h.1 "x"]
  rfl

/-- ASCII bytes of a string, as produced by `line.encode("ascii")` in
`_mock_socket_stream` (src/respx/api.py line 334). -/
def bytesOfAscii (s : String) : List Nat :=
  s.data.map Char.toNat

/-- Byte pair CRLF = b"\r\n" (src/respx/api.py line 333). -/
def CRLFb : List Nat := [13, 10]

/-- Whether an ASCII byte is a letter; this is what being a cased
character means for the ASCII header names handled here. -/
def isAlphaB (n : Nat) : Bool :=
  decide ((65 ≤ n ∧ n ≤ 90) ∨ (97 ≤ n ∧ n ≤ 122))

/-- Uppercase an ASCII byte. -/
def upperB (n : Nat) : Nat :=
  if 97 ≤ n ∧ n ≤ 122 then n - 32 else n

/-- Lowercase an ASCII byte. -/
def lowerB (n : Nat) : Nat :=
  if 65 ≤ n ∧ n ≤ 90 then n + 32 else n

/-- Helper for the Python `str.title()` transformation on ASCII bytes:
a letter is uppercased when the previous character is not a letter and
lowercased otherwise; the Boolean argument records whether the previous
character was a letter. -/
def pyTitleAux : Bool → List Nat → List Nat
  | _, [] => []
  | prevAlpha, c :: cs =>
      if isAlphaB c then
        (if prevAlpha then lowerB c else upperB c) :: pyTitleAux true cs
      else
        c :: pyTitleAux false cs

/-- Python `key.title()` on ASCII bytes, as applied to each header name
in src/respx/api.py line 331. -/
def pyTitle (s : List Nat) : List Nat :=
  pyTitleAux false s

/-- Python `CRLF.join(lines)` (src/respx/api.py line 334): the
separator goes between lines, not after each. -/
def joinB (sep : List Nat) : List (List Nat) → List Nat
  | [] => []
  | [l] => l
  | l :: ls => l ++ sep ++ joinB sep ls

/-- Rendered header line `f"{key.title()}: {value}"` at the byte level
(58 and 32 are the colon and space bytes). -/
def headerLineB (kv : List Nat × List Nat) : List Nat :=
  pyTitle kv.1 ++ [58, 32] ++ kv.2

/-- Status line `f"HTTP/{version} {status} MOCK"` as ASCII bytes
(src/respx/api.py lines 328-329). -/
def statusLineB (http_version : String) (status_code : Nat) : List Nat :=
  bytesOfAscii ("HTTP/" ++ http_version ++ " " ++ toString status_code ++ " MOCK")

/-- Headers of a template as byte pairs, the view the framing code
consumes. -/
def headerBytes (r : ResponseTemplate) : List (List Nat × List Nat) :=
  r.headers.map fun kv => (bytesOfAscii kv.1, bytesOfAscii kv.2)

/-- `HTTPXMock._mock_socket_stream` data construction (src/respx/api.py
lines 323-336): join the status line and the rendered header lines with
CRLF, append two CRLF, then the body bytes. -/
def mockSocketStreamData (r : ResponseTemplate) : List Nat :=
  joinB CRLFb (statusLineB r.http_version r.status_code
      :: (headerBytes r).map headerLineB)
    ++ CRLFb ++ CRLFb ++ bytesOfAscii r.content

/-- Framing as the spec words it: the status line, then each header
line, each of these lines terminated by CRLF, then one blank CRLF
line, then the body bytes. -/
def specFramedData (r : ResponseTemplate) : List Nat :=
  statusLineB r.http_version r.status_code ++ CRLFb ++
    ((headerBytes r).map headerLineB).foldr (fun l acc => l ++ CRLFb ++ acc) [] ++
    CRLFb ++ bytesOfAscii r.content

theorem joinB_cons_sep (sep : List Nat) :
    ∀ (x : List Nat) (xs : List (List Nat)),
      joinB sep (x :: xs) ++ sep
        = x ++ sep ++ xs.foldr (fun l acc => l ++ sep ++ acc) []
  | _, [] => by simp [joinB]
  | x, y :: ys => by
    have ih := joinB_cons_sep sep y ys
    simp only [joinB, List.foldr]
    rw [← ih]
    simp [List.append_assoc]

theorem lowerB_congr (a b : Nat) (h : lowerB a = lowerB b) :
    isAlphaB a = isAlphaB b ∧ upperB a = upperB b := by
  unfold lowerB at h
  constructor
  · unfold isAlphaB
    rw [decide_eq_decide]
    split at h <;> split at h <;> omega
  · unfold upperB
    split at h <;> split at h <;> split <;> split <;> omega

theorem lowerB_of_not_alpha (n : Nat) (h : isAlphaB n = false) : lowerB n = n := by
  unfold isAlphaB at h
  rw [decide_eq_false_iff_not] at h
  unfold lowerB
  split <;> omega

theorem pyTitleAux_congr :
    ∀ (b : Bool) (k₁ k₂ : List Nat), k₁.map lowerB = k₂.map lowerB →
      pyTitleAux b k₁ = pyTitleAux b k₂
  | _, [], [], _ => rfl
  | _, [], _ :: _, h => by simp at h
  | _, _ :: _, [], h => by simp at h
  | b, c₁ :: cs₁, c₂ :: cs₂, h => by
    simp only [List.map_cons, List.cons.injEq] at h
    obtain ⟨hc, hcs⟩ := h
    obtain ⟨ha, hu⟩ := lowerB_congr c₁ c₂ hc
    have htail₁ := pyTitleAux_congr true cs₁ cs₂ hcs
    have htail₂ := pyTitleAux_congr false cs₁ cs₂ hcs
    cases hA : isAlphaB c₁ with
    | true =>
      have hA₂ : isAlphaB c₂ = true := by rw [← ha, hA]
      cases b <;> simp [pyTitleAux, hA, hA₂, hu, hc, htail₁]
    | false =>
      have hA₂ : isAlphaB c₂ = false := by rw [← ha, hA]
      have hcc : c₁ = c₂ := by
        rw [lowerB_of_not_alpha c₁ hA, lowerB_of_not_alpha c₂ hA₂] at hc
        exact hc
      simp [pyTitleAux, hA, hA₂, hcc, htail₂]

/-- C8: the synthesized payload of `_mock_socket_stream` is exactly the
status line HTTP/(version) (status) MOCK, then each header rendered as
its title-cased name, a colon and a space, and its value, each of these
lines terminated by CRLF, then one blank CRLF line, then the body
bytes; and the title-cased rendering of a header name depends only on
the name up to ASCII case, i.e. it does not depend on the casing with
which the header was registered. -/
theorem c8_byte_framing (r : ResponseTemplate) (k₁ k₂ : List Nat)
    (h : k₁.map lowerB = k₂.map lowerB) :
    mockSocketStreamData r = specFramedData r ∧ pyTitle k₁ = pyTitle k₂ := by
  constructor
  · unfold mockSocketStreamData specFramedData
    rw [show ∀ l₁ l₂ l₃ l₄ : List Nat, l₁ ++ l₂ ++ l₃ ++ l₄
          = (l₁ ++ l₂) ++ l₃ ++ l₄ from fun _ _ _ _ => by simp [List.append_assoc],
      joinB_cons_sep]
  · exact pyTitleAux_congr false k₁ k₂ h

/-- C8, witness: the framing identity on a concrete template whose
header name was registered as content-TYPE, together with the fact
that registering it as Content-Type renders identically. -/
theorem c8_byte_framing_witness :
    (bytesOfAscii "content-TYPE").map lowerB
      = (bytesOfAscii "Content-Type").map lowerB ∧
    (mockSocketStreamData
        { status_code := 200, headers := [("content-TYPE", "text/plain")],
          content := "hello", http_version := "1.1" }
      = specFramedData
        { status_code := 200, headers := [("content-TYPE", "text/plain")],
          content := "hello", http_version := "1.1" } ∧
     pyTitle (bytesOfAscii "content-TYPE") = pyTitle (bytesOfAscii "Content-Type")) :=
  ⟨by decide,
   c8_byte_framing
     { status_code := 200, headers := [("content-TYPE", "text/plain")],
       content := "hello", http_version := "1.1" }
     (bytesOfAscii "content-TYPE") (bytesOfAscii "Content-Type") (by decide)⟩

/-- Result of one transport handling a request
(src/respx/transports.py lines 77-94): either it produces a response,
or it raises the PassThrough signal carrying the request whose
(possibly rewound) body stream replaces the current one.  Streams are
opaque and identified by a number. -/
inductive TXResult
  | ok (resp : Response)
  | decline (stream : Nat)
deriving DecidableEq, Repr

/-- `TryTransport.handle_request` and `handle_async_request`
(src/respx/transports.py lines 77-113, both share this logic): try
each transport in list order on the current stream; on a PassThrough
signal, replace the stream by the one carried by the signal and move
to the next transport; return the result of the first transport that
does not decline; raise RuntimeError (none) when every transport
declined.  Each transport is modelled by its response to the stream
argument, the only argument the loop rebinds; method, url, headers and
extensions are passed through unchanged. -/
def tryTransport : List (Nat → TXResult) → Nat → Option Response
  | [], _ => none
  | t :: ts, s =>
      match t s with
      | TXResult.ok r => some r
      | TXResult.decline s' => tryTransport ts s'

/-- C9: the multi-transport composition attempts transports in
registration order: a transport that answers the current stream with a
response ends the search with that response; a transport that raises
the pass-through signal is skipped and the remaining transports are
attempted with the stream carried by the signal; and when every
transport declines every stream the composition fails fatally
(returns none, the RuntimeError of the source). -/
theorem c9_try_transport_spec :
    (∀ (t : Nat → TXResult) (ts : List (Nat → TXResult)) (s : Nat) (r : Response),
      t s = TXResult.ok r → tryTransport (t :: ts) s = some r) ∧
    (∀ (t : Nat → TXResult) (ts : List (Nat → TXResult)) (s s' : Nat),
      t s = TXResult.decline s' → tryTransport (t :: ts) s = tryTransport ts s') ∧
    (∀ (ts : List (Nat → TXResult)) (s : Nat),
      (∀ t ∈ ts, ∀ σ, ∃ σ', t σ = TXResult.decline σ') →
        tryTransport ts s = none) := by
  refine ⟨?_, ?_, ?_⟩
  · intro t ts s r h
    simp [tryTransport, h]
  · intro t ts s s' h
    simp [tryTransport, h]
  · intro ts
    induction ts with
    | nil => intro s _; rfl
    | cons t ts ih =>
      intro s h
      obtain ⟨s', hs'⟩ := h t (by simp) s
      simp only [tryTransport, hs']
      exact ih s' fun q hq => h q (by simp [hq])

/-- C9, witness: a declining transport hands the rewound stream 5 to
the next transport, which answers; with only declining transports the
composition fails. -/
theorem c9_try_transport_spec_witness :
    ((fun _ : Nat => TXResult.decline 5) 0 = TXResult.decline 5 ∧
     tryTransport
        [fun _ => TXResult.decline 5,
         fun s => TXResult.ok { status_code := s, body := "hit" }] 0
       = some { status_code := 5, body := "hit" }) ∧
    tryTransport [fun _ => TXResult.decline 5, fun s => TXResult.decline (s + 1)] 0
      = none := by
  constructor
  · refine ⟨rfl, ?_⟩
    rw [c9_try_transport_spec.2.1 (fun _ => TXResult.decline 5)
        [fun s => TXResult.ok { status_code := s, body := "hit" }] 0 5 rfl]
    exact c9_try_transport_spec.1 (fun s => TXResult.ok { status_code := s, body := "hit" })
      [] 5 { status_code := 5, body := "hit" } rfl
  · exact c9_try_transport_spec.2.2
      [fun _ => TXResult.decline 5, fun s => TXResult.decline (s + 1)] 0
      (by
        intro t ht σ
        simp at ht
        cases ht with
        | inl h1 => exact ⟨5, by rw [h1]⟩
        | inr h2 => exact ⟨σ + 1, by rw [h2]⟩)
